import Mathlib

/-!
Verification of the healthcare-IoMT risk toolkit core
(`riskops.grc.assessment` and `riskops.grc.compliance`).

The Python source is embedded shallowly:

* pandas cell values become the inductive types `PyVal` (generic cells)
  and `NumCell` (`Probability` / `Impact` cells, recording the outcome of
  the `pd.to_numeric` coercion: a parsed number, a null, or a
  non-numeric value);
* numbers are modelled as `ℚ` (exact rationals; the counterexamples and
  theorems below only involve values on which IEEE doubles are exact),
  and Python's `int()` / `astype(int)` truncation toward zero is
  `pyInt`;
* fallible operations return `Except`; the Python exception hierarchy
  (`FileNotFoundError`, `RiskAssessmentError`,
  `RiskMatrixValidationError`, `ValueError`) is the inductive
  `AssessError`;
* the filesystem used by `load_csv` / `export_csv` is an explicit
  association list passed in and out.
-/

namespace RiskOps

/-- The apostrophe character, written via its code point. -/
def quoteChar : Char := Char.ofNat 39

/-- `dangerous_prefixes` from `assessment._sanitize_dataframe` and
`compliance._sanitize_text`: the spreadsheet formula control characters. -/
def dangerousChars : List Char := ['=', '+', '-', '@']

/-- `DANGEROUS_CHARS` from `riskops.core.constants` (each entry is a
one-character string, so `startswith` reduces to a first-character test). -/
def DANGEROUS_CHARS : List Char := ['=', '+', '-', '@', '\t', '\r']

/-- The sanitisation rule on the character list of a string: a
non-empty string whose first character is one of `= + - @` and which
does not already start with a single quote (expressed as the
first-character test `c != quoteChar`, equivalent to Python's
`not value.startswith("'")`) is prefixed with a single quote. -/
def sanitizeChars (l : List Char) : List Char :=
  match l with
  | [] => []
  | c :: cs =>
      if dangerousChars.contains c && c != quoteChar then quoteChar :: c :: cs
      else c :: cs

/-- The string-sanitisation rule of
`assessment.RiskAssessmentEngine._sanitize_dataframe._sanitize_value`
(string case). -/
def sanitizeStr (value : String) : String :=
  String.mk (sanitizeChars value.data)

/-- `compliance._sanitize_text`: textually the same rule as
`sanitizeStr`, duplicated in the source. -/
def sanitize_text (value : String) : String :=
  String.mk (sanitizeChars value.data)

/-- Python `str.strip()` on the character list: drop whitespace from
both ends. -/
def trimChars (l : List Char) : List Char :=
  ((l.dropWhile Char.isWhitespace).reverse.dropWhile Char.isWhitespace).reverse

/-- Python `str.strip()`. -/
def pystrip (s : String) : String := String.mk (trimChars s.data)

/-- Python `str.lower()` (ASCII case folding, which covers every string
the claims exercise). -/
def lowerString (s : String) : String := String.mk (s.data.map Char.toLower)

/-- A Python cell value as seen by the sanitisers: a string, a numeric
value, or null (`None` / `NaN`). -/
inductive PyVal where
  | pstr (s : String)
  | pnum (q : ℚ)
  | pnull
deriving DecidableEq, Repr

/-- `assessment.RiskAssessmentEngine._sanitize_dataframe._sanitize_value`:
apply the prefix rule to non-empty strings, pass every other value
through unchanged (in particular nulls stay nulls). -/
def sanitize_value (v : PyVal) : PyVal :=
  match v with
  | .pstr s => .pstr (sanitizeStr s)
  | other => other

/-- `riskops.utils.security.sanitize_cell_value`: null becomes the empty
string, numerics pass through, strings are stripped, a stripped-empty
string (empty character list) becomes the empty string, and a stripped
string starting with a character of `DANGEROUS_CHARS` is prefixed with
a single quote. -/
def sanitize_cell_value (v : PyVal) : PyVal :=
  match v with
  | .pnull => .pstr ""
  | .pnum q => .pnum q
  | .pstr s =>
      let str_value := pystrip s
      match str_value.data with
      | [] => .pstr ""
      | c :: cs =>
          if DANGEROUS_CHARS.contains c then
            .pstr (String.mk (quoteChar :: c :: cs))
          else .pstr str_value

/-- `assessment.RiskThresholds`: a frozen dataclass of three integer cut
points. The Python constructor performs no validation. -/
structure RiskThresholds where
  low_max : Int
  medium_max : Int
  high_max : Int
deriving DecidableEq, Repr

/-- The dataclass defaults `(4, 9, 16)`. -/
def defaultThresholds : RiskThresholds := ⟨4, 9, 16⟩

/-- The ordering invariant claimed by the spec for `RiskThresholds`. -/
def thresholdsInvariant (t : RiskThresholds) : Prop :=
  t.low_max < t.medium_max ∧ t.medium_max < t.high_max

/-- `RiskThresholds.level_for_score`: negative scores raise `ValueError`,
otherwise the level is found by comparing against the cut points in
order. -/
def level_for_score (t : RiskThresholds) (score : Int) : Except String String :=
  if score < 0 then .error "Risk score cannot be negative."
  else if score ≤ t.low_max then .ok "low"
  else if score ≤ t.medium_max then .ok "medium"
  else if score ≤ t.high_max then .ok "high"
  else .ok "critical"

/-- A `Probability` / `Impact` cell, recorded together with the outcome
of the `pd.to_numeric(..., errors="coerce")` coercion: `null` is a
missing value (`None` / `NaN`), `num q` a value already of numeric
dtype, `numStr q` a string that parses to the number `q`, and
`nonNumeric` a string (or other object) on which coercion yields `NaN`. -/
inductive NumCell where
  | null
  | num (q : ℚ)
  | numStr (q : ℚ)
  | nonNumeric
deriving DecidableEq, Repr

/-- `pd.to_numeric(..., errors="coerce")` on a single cell; `none` is
`NaN`. -/
def to_numeric : NumCell → Option ℚ
  | .null => none
  | .num q => some q
  | .numStr q => some q
  | .nonNumeric => none

/-- Python's `int()` / numpy's `astype(int)` on a rational: truncation
toward zero (ceiling for negative values, floor for the rest). -/
def pyInt (q : ℚ) : Int :=
  if q < 0 then Rat.ceil q else Rat.floor q

/-- A row of a risk matrix with the four canonical columns
`Asset, Threat, Probability, Impact` (the shapes all claims exercise;
column-renaming via `_normalise_columns` has already produced the
canonical names). -/
structure ARow where
  asset : String
  threat : String
  probability : NumCell
  impact : NumCell
deriving DecidableEq, Repr

/-- A row of the DataFrame returned by `calculate_scores`: the
`Probability` / `Impact` columns have been overwritten with their
coerced numeric values and the `Risk` / `RiskLevel` columns added. -/
structure ScoredRow where
  asset : String
  threat : String
  probability : ℚ
  impact : ℚ
  risk : Int
  riskLevel : String
deriving DecidableEq, Repr

/-- The Python exception kinds raised by the engine: `notFound` is the
builtin `FileNotFoundError` (not a `RiskAssessmentError`), `assessment`
is `RiskAssessmentError`, `validation` is its subclass
`RiskMatrixValidationError`, and `valueError` is the builtin
`ValueError` raised by `level_for_score`. -/
inductive AssessError where
  | notFound (path : String)
  | assessment (msg : String)
  | validation (msg : String)
  | valueError (msg : String)
deriving DecidableEq, Repr

/-- Whether a `Probability` / `Impact` column has numeric pandas dtype: a
column containing any string cell is of object dtype. -/
def colIsNumericDtype (cells : List NumCell) : Bool :=
  cells.all fun c =>
    match c with
    | .null => true
    | .num _ => true
    | _ => false

/-- The value check of `_validate_structure` for one column: if the
dtype is not numeric, coerce and fail when any cell coerces to `NaN`.
Returns `true` when the column passes. -/
def validate_structure_values (cells : List NumCell) : Bool :=
  if colIsNumericDtype cells then true
  else !(cells.any fun c => (to_numeric c).isNone)

/-- The scored row `calculate_scores` builds for an input row once all
validation has passed (used to state its functional behaviour). -/
def scoredRowOf (t : RiskThresholds) (r : ARow) : ScoredRow :=
  let p := (to_numeric r.probability).getD 0
  let i := (to_numeric r.impact).getD 0
  let risk := pyInt p * pyInt i
  { asset := r.asset, threat := r.threat, probability := p, impact := i,
    risk := risk,
    riskLevel := ((level_for_score t risk).toOption).getD "" }

/-- `RiskAssessmentEngine.calculate_scores`: re-run the structural value
checks, coerce `Probability` / `Impact`, fail on any null or non-numeric
value, fail on any value outside `[1, 5]`, then add
`Risk = int(Probability) * int(Impact)` and `RiskLevel` via the
thresholds (whose `ValueError` on a negative score would propagate). -/
def calculate_scores (t : RiskThresholds) (rows : List ARow) :
    Except AssessError (List ScoredRow) :=
  if !validate_structure_values (rows.map (fun r => r.probability)) then
    .error (.validation "Column Probability must contain only numeric values in the risk matrix.")
  else if !validate_structure_values (rows.map (fun r => r.impact)) then
    .error (.validation "Column Impact must contain only numeric values in the risk matrix.")
  else if rows.any (fun r => (to_numeric r.probability).isNone || (to_numeric r.impact).isNone) then
    .error (.validation "Probability and Impact columns must not contain null or non-numeric values.")
  else if rows.any (fun r =>
      !(decide (1 ≤ (to_numeric r.probability).getD 0) &&
        decide ((to_numeric r.probability).getD 0 ≤ 5))) then
    .error (.validation "Column Probability contains values outside the allowed 1-5 range.")
  else if rows.any (fun r =>
      !(decide (1 ≤ (to_numeric r.impact).getD 0) &&
        decide ((to_numeric r.impact).getD 0 ≤ 5))) then
    .error (.validation "Column Impact contains values outside the allowed 1-5 range.")
  else
    rows.mapM fun r =>
      match level_for_score t ((scoredRowOf t r).risk) with
      | .error m => .error (.valueError m)
      | .ok _ => .ok (scoredRowOf t r)

/-- `_MAX_FILE_SIZE_BYTES`: the 10 MiB ceiling. -/
def MAX_FILE_SIZE_BYTES : Nat := 10 * 1024 * 1024

/-- A file on disk as `load_csv` sees it: its byte size and the data
rows its delimited text parses to (canonical columns, see `ARow`). -/
structure FileData where
  size : Nat
  rows : List ARow
deriving DecidableEq, Repr

/-- `_sanitize_dataframe` on a risk-matrix row: the string columns
`Asset` / `Threat` get the prefix rule; the numeric columns are not of
object dtype and are left alone. -/
def sanitize_row (r : ARow) : ARow :=
  { r with asset := sanitizeStr r.asset, threat := sanitizeStr r.threat }

/-- `RiskAssessmentEngine.load_csv` over an explicit filesystem
(association list from path to `FileData`): resolve the path (absent →
`FileNotFoundError`), enforce the size ceiling (strictly larger →
`RiskAssessmentError`), fail with `RiskMatrixValidationError` when the
parse yields zero data rows, then sanitise cells and run the structural
value checks. -/
def load_csv (fs : List (String × FileData)) (path : String) :
    Except AssessError (List ARow) :=
  match fs.lookup path with
  | none => .error (.notFound path)
  | some f =>
      if f.size > MAX_FILE_SIZE_BYTES then
        .error (.assessment "File is too large for processing.")
      else if f.rows.isEmpty then
        .error (.validation "CSV file does not contain any data.")
      else
        let sanitized := f.rows.map sanitize_row
        if !validate_structure_values (sanitized.map (fun r => r.probability)) then
          .error (.validation "Column Probability must contain only numeric values in the risk matrix.")
        else if !validate_structure_values (sanitized.map (fun r => r.impact)) then
          .error (.validation "Column Impact must contain only numeric values in the risk matrix.")
        else .ok sanitized

/-- `_sanitize_dataframe` on a scored row (export-time defense in
depth): the string columns `Asset`, `Threat` and `RiskLevel` get the
prefix rule (no risk level produced by the engine starts with a
dangerous character, so sanitising it is the identity there); numeric
columns pass through. -/
def sanitize_scored (r : ScoredRow) : ScoredRow :=
  { r with asset := sanitizeStr r.asset, threat := sanitizeStr r.threat,
           riskLevel := sanitizeStr r.riskLevel }

/-- The filesystem state `export_csv` acts on: the set of existing
directories and the files already written (newest binding first). -/
structure FS where
  dirs : List String
  files : List (String × List ScoredRow)
deriving DecidableEq, Repr

/-- `RiskAssessmentEngine.export_csv`: fail (leaving the filesystem
unchanged) if the parent directory does not exist or if the destination
exists and `overwrite` is off; otherwise sanitise the frame and write it
in one step, returning the resolved output path. -/
def export_csv (fs : FS) (df : List ScoredRow) (dir fname : String)
    (overwrite : Bool) : FS × Except AssessError String :=
  if !fs.dirs.contains dir then
    (fs, .error (.assessment "Output directory does not exist."))
  else
    let resolved := dir ++ "/" ++ fname
    if (fs.files.lookup resolved).isSome && !overwrite then
      (fs, .error (.assessment "Refusing to overwrite existing file. Pass overwrite=True to allow this."))
    else
      ({ fs with files := (resolved, df.map sanitize_scored) :: fs.files }, .ok resolved)

/-- Whether `pat` occurs as a contiguous substring of `l` (Python's
`pat in text` on strings, via the underlying character lists). -/
def listInfix (pat : List Char) : List Char → Bool
  | [] => pat.isEmpty
  | c :: rest => pat.isPrefixOf (c :: rest) || listInfix pat rest

/-- Python's `kw in text` for strings. -/
def containsSubstr (text kw : String) : Bool :=
  listInfix kw.data text.data

/-- Keyword group 1 of `_classify_domain` (access control and identity). -/
def accessControlKeywords : List String :=
  ["unauthorized access", "unauthorised access", "access control", "password",
   "credential", "login", "authentication", "mfa", "multi-factor"]

/-- Keyword group 2 of `_classify_domain` (network security). -/
def networkKeywords : List String :=
  ["network", "wifi", "wi-fi", "lan", "wan", "vpn", "switch", "router",
   "firewall", "segmentation", "segmented"]

/-- Keyword group 3 of `_classify_domain` (device or endpoint security). -/
def deviceKeywords : List String :=
  ["iomt", "medical device", "infusion pump", "ventilator", "endpoint",
   "workstation", "tablet", "laptop", "mobile", "bedside monitor",
   "pacemaker", "scanner"]

/-- Keyword group 4 of `_classify_domain` (data protection and
cryptography). -/
def dataProtectionKeywords : List String :=
  ["phi", "patient data", "health record", "ehr", "emr", "database",
   "backup", "encryption", "crypt", "pseudonymisation", "pseudonymization",
   "leak", "exfiltration"]

/-- Keyword group 5 of `_classify_domain` (logging and monitoring). -/
def loggingKeywords : List String :=
  ["logging", "log", "monitoring", "siem", "ids", "suricata", "alert",
   "detection", "soc"]

/-- All five keyword groups in their fixed checking order. -/
def allKeywordGroups : List (List String) :=
  [accessControlKeywords, networkKeywords, deviceKeywords,
   dataProtectionKeywords, loggingKeywords]

/-- `ComplianceMapper._classify_domain`: first-match-wins keyword search
over the lowercased concatenation of asset and threat, with the
high/critical fallback to `data_protection` and the final `general`
default. -/
def classify_domain (asset threat : String) (risk_level : Option String) : String :=
  let text := lowerString (asset ++ " " ++ threat)
  if accessControlKeywords.any (fun kw => containsSubstr text kw) then "access_control"
  else if networkKeywords.any (fun kw => containsSubstr text kw) then "network_security"
  else if deviceKeywords.any (fun kw => containsSubstr text kw) then "device_security"
  else if dataProtectionKeywords.any (fun kw => containsSubstr text kw) then "data_protection"
  else if loggingKeywords.any (fun kw => containsSubstr text kw) then "logging_monitoring"
  else if risk_level == some "high" || risk_level == some "critical" then "data_protection"
  else "general"

/-- `compliance.ControlMapping`: the per-framework control identifier
lists for one domain. -/
structure ControlMapping where
  iso_27001 : List String
  hipaa : List String
  gdpr : List String
deriving DecidableEq, Repr

/-- `ComplianceMapper._default_domain_mappings`: the static
domain-to-controls table. -/
def default_domain_mappings : List (String × ControlMapping) :=
  [("access_control",
    { iso_27001 := ["A.5.15 - Access control", "A.5.16 - Identity management",
                    "A.8.3 - Secure log-on procedures"],
      hipaa := ["ADMIN-RISK-MANAGEMENT - Security management process",
                "TECH-ACCESS - Access control (unique user ID, emergency access)"],
      gdpr := ["ART32-1B - Ability to ensure ongoing confidentiality of systems and services"] }),
   ("network_security",
    { iso_27001 := ["A.8.20 - Network security", "A.8.21 - Security of network services"],
      hipaa := ["TECH-TRANSMISSION - Transmission security",
                "TECH-INTEGRITY - Protection against improper alteration or destruction"],
      gdpr := ["ART32-1D - Process for regularly testing and evaluating security measures"] }),
   ("device_security",
    { iso_27001 := ["A.7.8 - Protection of information stored on endpoint devices",
                    "A.7.5 - Secure disposal or re-use of equipment"],
      hipaa := ["PHYS-DEVICE - Device and media controls",
                "PHYS-WORKSTATION - Workstation security"],
      gdpr := ["ART32-1B - Confidentiality, integrity and availability of processing systems"] }),
   ("data_protection",
    { iso_27001 := ["A.8.10 - Information deletion", "A.8.24 - Cryptographic controls",
                    "A.5.12 - Classification of information"],
      hipaa := ["ADMIN-DATA-GOV - Information access management",
                "TECH-ENCRYPTION - Encryption and decryption of electronic PHI"],
      gdpr := ["ART32-1A - Pseudonymisation and encryption of personal data",
               "ART32-1C - Ability to restore availability and access in a timely manner"] }),
   ("logging_monitoring",
    { iso_27001 := ["A.8.15 - Logging", "A.8.16 - Monitoring activities"],
      hipaa := ["TECH-AUDIT - Audit controls",
                "ADMIN-SECURITY-INCIDENT - Security incident procedures"],
      gdpr := ["ART32-1D - Regular testing, assessing and evaluating effectiveness"] }),
   ("general",
    { iso_27001 := ["A.5.1 - Information security policy",
                    "A.5.23 - Information security in use of cloud services"],
      hipaa := ["ADMIN-RISK-MANAGEMENT - Risk analysis and risk management"],
      gdpr := ["ART32-1 - Appropriate technical and organisational measures based on risk"] })]

/-- `self._domain_mappings.get(domain, self._domain_mappings["general"])`
for the default mapper (the `general` entry exists, so the final
fallback to an empty mapping never fires). -/
def domain_mapping (domain : String) : ControlMapping :=
  (default_domain_mappings.lookup domain).getD
    ((default_domain_mappings.lookup "general").getD ⟨[], [], []⟩)

/-- `ComplianceMapper._normalize_risk_level`: strip and lowercase,
returning `none` for an effectively empty value. -/
def normalize_risk_level (value : String) : Option String :=
  let stripped := lowerString (pystrip value)
  if stripped.data.isEmpty then none else some stripped

/-- A row of the mapper's input with the columns it reads: `Asset`,
`Threat`, and the optional `RiskLevel` cell (`none` when the column is
absent or the cell has no value). -/
structure CRow where
  asset : String
  threat : String
  riskLevel : Option String
deriving DecidableEq, Repr

/-- The risk level the mapper's row loop ends up with: the column pass
in `_dataframe_from_input` applies `_normalize_risk_level`, and the row
loop's re-normalisation of that already-normalised value is the
identity, so the composite is one `_normalize_risk_level` application. -/
def effectiveRiskLevel (r : CRow) : Option String :=
  r.riskLevel.bind normalize_risk_level

/-- One entry of the `map_risks_to_controls` result dictionary. -/
structure MapEntry where
  asset : String
  threat : String
  risk_level : Option String
  domain : String
  recommended_controls : ControlMapping
deriving DecidableEq, Repr

/-- The entry `map_risks_to_controls` builds for one row: sanitise asset
and threat, classify, and look up the domain's controls. -/
def entryFor (r : CRow) : MapEntry :=
  let asset := sanitize_text r.asset
  let threat := sanitize_text r.threat
  let rl := effectiveRiskLevel r
  let domain := classify_domain asset threat rl
  { asset := asset, threat := threat, risk_level := rl, domain := domain,
    recommended_controls := domain_mapping domain }

/-- The dictionary key `f"{asset}::{threat}"` (sanitised texts). -/
def riskKey (r : CRow) : String :=
  sanitize_text r.asset ++ "::" ++ sanitize_text r.threat

/-- Dictionary assignment `d[k] = v`, on the function model of a Python
dict. -/
def updateMap (m : String → Option MapEntry) (k : String) (v : MapEntry) :
    String → Option MapEntry :=
  fun x => if x = k then some v else m x

/-- `ComplianceMapper.map_risks_to_controls` with the default domain
mappings: reject empty input, then fill the result dictionary row by
row (a later row overwrites an earlier row with the same key). -/
def map_risks_to_controls (rows : List CRow) :
    Except String (String → Option MapEntry) :=
  if rows.isEmpty then .error "RiskScenario sequence is empty."
  else .ok (rows.foldl (fun acc r => updateMap acc (riskKey r) (entryFor r)) (fun _ => none))

/-- Python's `s.split()[0]` when it exists: the first maximal run of
non-whitespace characters (splitting at whitespace and dropping the
empty chunks, as Python's no-argument `split` does). -/
def firstToken (s : String) : Option String :=
  (((s.data.splitOnP Char.isWhitespace).filter (fun t => !t.isEmpty)).head?).map String.mk

/-- The caller-supplied `implemented_controls` mapping; a framework key
that is absent maps to the empty list, and `None` overall is three
empty lists. -/
structure ImplementedControls where
  iso_27001 : List String
  hipaa : List String
  gdpr : List String
deriving DecidableEq, Repr

/-- The `normalized_implemented` set for one framework: strip each raw
identifier, skip empty results, and keep the lowercased token before
the first whitespace. (For a non-empty stripped identifier the token
always exists; a missing token is skipped here where Python would
raise, an unreachable divergence.) -/
def normalize_implemented (values : List String) : List String :=
  values.filterMap fun raw =>
    let identifier := pystrip raw
    if identifier.data.isEmpty then none
    else (firstToken identifier).map lowerString

/-- `control.split()[0].lower()` for a recommended control; `none` models
the `IndexError` Python raises on an all-whitespace control. -/
def controlTokenLower (control : String) : Option String :=
  (firstToken control).map lowerString

/-- The partition of one framework's recommended controls into
implemented and missing, by membership of the control's leading token
in the normalised implemented set. `none` models the `IndexError` on a
token-less control (never hit with the default mappings). -/
def gapPartition (rec : List String) (tokens : List String) :
    Option (List String × List String) :=
  match rec with
  | [] => some ([], [])
  | c :: rest =>
      match gapPartition rest tokens, controlTokenLower c with
      | some (imp, mis), some tok =>
          if tokens.contains tok then some (c :: imp, mis)
          else some (imp, c :: mis)
      | _, _ => none

/-- The three regulatory frameworks. -/
inductive Framework where
  | iso_27001
  | hipaa
  | gdpr
deriving DecidableEq, Repr

/-- The control list of a `ControlMapping` for one framework. -/
def fwControls (cm : ControlMapping) : Framework → List String
  | .iso_27001 => cm.iso_27001
  | .hipaa => cm.hipaa
  | .gdpr => cm.gdpr

/-- The caller-supplied identifier list for one framework. -/
def fwImplemented (impl : ImplementedControls) : Framework → List String
  | .iso_27001 => impl.iso_27001
  | .hipaa => impl.hipaa
  | .gdpr => impl.gdpr

/-- One entry of the `generate_gap_analysis` result: the mapping entry
plus the per-framework implemented / missing partitions. -/
structure GapEntry where
  asset : String
  threat : String
  risk_level : Option String
  domain : String
  recommended_controls : ControlMapping
  implemented_controls : ControlMapping
  missing_controls : ControlMapping
deriving DecidableEq, Repr

/-- The gap computation `generate_gap_analysis` performs on one mapping
entry. -/
def gapFor (impl : ImplementedControls) (e : MapEntry) : Option GapEntry :=
  match gapPartition e.recommended_controls.iso_27001 (normalize_implemented impl.iso_27001),
        gapPartition e.recommended_controls.hipaa (normalize_implemented impl.hipaa),
        gapPartition e.recommended_controls.gdpr (normalize_implemented impl.gdpr) with
  | some (impIso, misIso), some (impHip, misHip), some (impGdpr, misGdpr) =>
      some { asset := e.asset, threat := e.threat, risk_level := e.risk_level,
             domain := e.domain, recommended_controls := e.recommended_controls,
             implemented_controls := ⟨impIso, impHip, impGdpr⟩,
             missing_controls := ⟨misIso, misHip, misGdpr⟩ }
  | _, _, _ => none

/-- `ComplianceMapper.generate_gap_analysis` with the default domain
mappings: run `map_risks_to_controls`, then extend every entry with its
implemented / missing partitions. -/
def generate_gap_analysis (rows : List CRow) (impl : ImplementedControls) :
    Except String (String → Option GapEntry) :=
  (map_risks_to_controls rows).map fun m => fun k => (m k).bind (gapFor impl)

/-! ## Helper lemmas -/

/-- The quote character is not a dangerous character. -/
lemma quote_not_dangerous : dangerousChars.contains quoteChar = false := by decide

/-- Unfolding equation for `sanitizeChars` on a non-empty list. -/
lemma sanitizeChars_cons (c : Char) (cs : List Char) :
    sanitizeChars (c :: cs) =
      if dangerousChars.contains c && c != quoteChar then quoteChar :: c :: cs
      else c :: cs := rfl

/-- Sanitising a character list twice is the same as sanitising it once. -/
lemma sanitizeChars_idem (l : List Char) :
    sanitizeChars (sanitizeChars l) = sanitizeChars l := by
  cases l with
  | nil => rfl
  | cons c cs =>
      by_cases h : (dangerousChars.contains c && c != quoteChar) = true
      · rw [sanitizeChars_cons, if_pos h, sanitizeChars_cons,
          if_neg (by decide : ¬((dangerousChars.contains quoteChar && quoteChar != quoteChar) = true))]
      · rw [sanitizeChars_cons, if_neg h, sanitizeChars_cons, if_neg h]

/-- `sanitizeStr` is idempotent. -/
lemma sanitizeStr_idem (s : String) : sanitizeStr (sanitizeStr s) = sanitizeStr s := by
  simp [sanitizeStr, sanitizeChars_idem]

/-! ## Claim C2 -/

/-- C2: with the default thresholds `(4, 9, 16)`, `level_for_score` maps
`s ≤ 4` to `low`, `5 ≤ s ≤ 9` to `medium`, `10 ≤ s ≤ 16` to `high`,
`s ≥ 17` to `critical`, and fails with a `ValueError` for every
`s < 0`. -/
theorem c2_level_for_score_default (s : Int) :
    (0 ≤ s ∧ s ≤ 4 → level_for_score defaultThresholds s = .ok "low") ∧
    (5 ≤ s ∧ s ≤ 9 → level_for_score defaultThresholds s = .ok "medium") ∧
    (10 ≤ s ∧ s ≤ 16 → level_for_score defaultThresholds s = .ok "high") ∧
    (17 ≤ s → level_for_score defaultThresholds s = .ok "critical") ∧
    (s < 0 → level_for_score defaultThresholds s = .error "Risk score cannot be negative.") := by
  have h4 : defaultThresholds.low_max = 4 := rfl
  have h9 : defaultThresholds.medium_max = 9 := rfl
  have h16 : defaultThresholds.high_max = 16 := rfl
  unfold level_for_score
  rw [h4, h9, h16]
  refine ⟨?_, ?_, ?_, ?_, ?_⟩ <;> intro h <;>
    split_ifs <;> first | rfl | (exfalso; omega)

/-- Witness for C2 at the boundary scores named by the claim. -/
theorem c2_witness :
    level_for_score defaultThresholds 4 = .ok "low" ∧
    level_for_score defaultThresholds 5 = .ok "medium" ∧
    level_for_score defaultThresholds 9 = .ok "medium" ∧
    level_for_score defaultThresholds 10 = .ok "high" ∧
    level_for_score defaultThresholds 16 = .ok "high" ∧
    level_for_score defaultThresholds 17 = .ok "critical" ∧
    level_for_score defaultThresholds 25 = .ok "critical" ∧
    level_for_score defaultThresholds (-1) = .error "Risk score cannot be negative." :=
  ⟨(c2_level_for_score_default 4).1 (by decide),
   (c2_level_for_score_default 5).2.1 (by decide),
   (c2_level_for_score_default 9).2.1 (by decide),
   (c2_level_for_score_default 10).2.2.1 (by decide),
   (c2_level_for_score_default 16).2.2.1 (by decide),
   (c2_level_for_score_default 17).2.2.2.1 (by decide),
   (c2_level_for_score_default 25).2.2.2.1 (by decide),
   (c2_level_for_score_default (-1)).2.2.2.2 (by decide)⟩

/-! ## Claim C8 -/

/-- C8 counterexample: `RiskThresholds(5, 3, 1)` is constructible (the
frozen dataclass generates an unvalidated constructor) and violates the
ordering invariant, refuting the claim that no invariant-violating value
can be obtained through the public constructor. -/
theorem c8_counterexample :
    ¬ thresholdsInvariant (RiskThresholds.mk 5 3 1) := by
  unfold thresholdsInvariant
  decide

/-- C8 amended: the invariant `low_max < medium_max < high_max` holds
for the default `(4, 9, 16)`, but the public constructor performs no
validation, so values violating the ordering can be constructed. -/
theorem c8_amended :
    thresholdsInvariant defaultThresholds ∧
    ∃ t : RiskThresholds, ¬ thresholdsInvariant t := by
  refine ⟨?_, ⟨⟨5, 3, 1⟩, ?_⟩⟩ <;> unfold thresholdsInvariant <;> decide

/-! ## Claim C5 -/

/-- C5 counterexample: the Engine's sanitiser passes null through
unchanged instead of turning it into the empty string, and the utility
`sanitize_cell_value` strips strings instead of passing every
non-dangerous string through unchanged — each cited sanitiser refutes
one clause of the claim. -/
theorem c5_counterexample :
    sanitize_value PyVal.pnull = PyVal.pnull ∧
    PyVal.pnull ≠ PyVal.pstr "" ∧
    sanitize_cell_value (PyVal.pstr "  a ") = PyVal.pstr "a" ∧
    PyVal.pstr "a" ≠ PyVal.pstr "  a " := by decide

/-- C5 amended: the Engine's sanitiser rewrites a string whose first
character is one of `= + - @` by prefixing a single quote, passes every
other string and every non-string value (numerics and nulls) through
unchanged — null is not converted to the empty string; separately, the
utility `sanitize_cell_value` maps null and whitespace-only strings to
the empty string, strips surrounding whitespace, and applies the prefix
rule (with dangerous set `= + - @ tab CR`) to the stripped string. -/
theorem c5_sanitization_amended :
    (∀ (c : Char) (cs : List Char), dangerousChars.contains c = true →
        sanitize_value (.pstr (String.mk (c :: cs))) =
          .pstr (String.mk (quoteChar :: c :: cs))) ∧
    (∀ (c : Char) (cs : List Char), dangerousChars.contains c = false →
        sanitize_value (.pstr (String.mk (c :: cs))) = .pstr (String.mk (c :: cs))) ∧
    (sanitize_value (.pstr "") = .pstr "") ∧
    (∀ q : ℚ, sanitize_value (.pnum q) = .pnum q) ∧
    (sanitize_value .pnull = .pnull) ∧
    (sanitize_cell_value .pnull = .pstr "") ∧
    (∀ q : ℚ, sanitize_cell_value (.pnum q) = .pnum q) ∧
    (∀ s : String, (pystrip s).data = [] → sanitize_cell_value (.pstr s) = .pstr "") ∧
    (∀ (s : String) (c : Char) (cs : List Char), (pystrip s).data = c :: cs →
        DANGEROUS_CHARS.contains c = true →
        sanitize_cell_value (.pstr s) = .pstr (String.mk (quoteChar :: c :: cs))) ∧
    (∀ (s : String) (c : Char) (cs : List Char), (pystrip s).data = c :: cs →
        DANGEROUS_CHARS.contains c = false →
        sanitize_cell_value (.pstr s) = .pstr (pystrip s)) := by
  refine ⟨?_, ?_, rfl, fun q => rfl, rfl, rfl, fun q => rfl, ?_, ?_, ?_⟩
  · intro c cs h
    have hmem : c ∈ dangerousChars := by simpa using h
    simp only [dangerousChars, List.mem_cons, List.not_mem_nil, or_false] at hmem
    rcases hmem with rfl | rfl | rfl | rfl <;> rfl
  · intro c cs h
    have hmem : c ∉ dangerousChars := by simpa using h
    simp [sanitize_value, sanitizeStr, sanitizeChars, hmem]
  · intro s h
    simp [sanitize_cell_value, h]
  · intro s c cs hdata h
    have hmem : c ∈ DANGEROUS_CHARS := by simpa using h
    simp [sanitize_cell_value, hdata, hmem]
  · intro s c cs hdata h
    have hmem : c ∉ DANGEROUS_CHARS := by simpa using h
    simp [sanitize_cell_value, hdata, hmem]

/-- Witness for C5 (amended): the prefix rule fires on a dangerous
first character, a plain string passes through, and the utility
sanitiser strips its input. -/
theorem c5_witness :
    sanitize_value (.pstr (String.mk ('=' :: "CMD".data))) =
      .pstr (String.mk (quoteChar :: '=' :: "CMD".data)) ∧
    sanitize_value (.pstr (String.mk ('a' :: "bc".data))) =
      .pstr (String.mk ('a' :: "bc".data)) ∧
    sanitize_cell_value (.pstr "  a ") = .pstr (pystrip "  a ") :=
  ⟨c5_sanitization_amended.1 '=' "CMD".data (by decide),
   c5_sanitization_amended.2.1 'a' "bc".data (by decide),
   c5_sanitization_amended.2.2.2.2.2.2.2.2.2 "  a " 'a' [] (by decide) (by decide)⟩

/-! ## Claim C9 -/

/-- C9: both sanitisers (the Mapper's `_sanitize_text` and the Engine's
`_sanitize_value`) are idempotent; a value already starting with a
single quote is left unchanged; `"=CMD"` becomes `"'=CMD"`; and the
export-time re-sanitisation of an already-sanitised scored row is the
identity. -/
theorem c9_sanitize_idempotent :
    (∀ s : String, sanitize_text (sanitize_text s) = sanitize_text s) ∧
    (∀ v : PyVal, sanitize_value (sanitize_value v) = sanitize_value v) ∧
    (∀ s : String, s.data.head? = some quoteChar →
        sanitize_text s = s ∧ sanitize_value (.pstr s) = .pstr s) ∧
    sanitize_text "=CMD" = "\x27=CMD" ∧
    sanitize_value (.pstr "=CMD") = .pstr "\x27=CMD" ∧
    (∀ r : ScoredRow, sanitize_scored (sanitize_scored r) = sanitize_scored r) := by
  have hskip : ∀ s : String, s.data.head? = some quoteChar → sanitizeChars s.data = s.data := by
    intro s h
    cases hd : s.data with
    | nil => simp [hd] at h
    | cons c cs =>
        rw [hd] at h
        simp only [List.head?_cons, Option.some.injEq] at h
        subst h
        rw [sanitizeChars_cons, if_neg (by decide :
          ¬((dangerousChars.contains quoteChar && quoteChar != quoteChar) = true))]
  refine ⟨?_, ?_, ?_, by decide, by decide, ?_⟩
  · intro s
    simp [sanitize_text, sanitizeChars_idem]
  · intro v
    cases v with
    | pstr s => simp [sanitize_value, sanitizeStr_idem]
    | pnum q => rfl
    | pnull => rfl
  · intro s h
    have h1 : sanitizeChars s.data = s.data := hskip s h
    constructor
    · simp [sanitize_text, h1]
    · simp [sanitize_value, sanitizeStr, h1]
  · intro r
    simp [sanitize_scored, sanitizeStr_idem]

/-- Witness for C9: idempotence and the leading-quote no-op evaluated on
the claim's concrete cell. -/
theorem c9_witness :
    sanitize_text (sanitize_text "=CMD") = sanitize_text "=CMD" ∧
    sanitize_text "\x27=CMD" = "\x27=CMD" :=
  ⟨(c9_sanitize_idempotent.1) "=CMD",
   ((c9_sanitize_idempotent.2.2.1) "\x27=CMD" (by decide)).1⟩

/-! ## Claim C4 -/

/-- C4: domain classification is a deterministic first-match-wins,
case-insensitive substring search over the concatenated asset and
threat text in the fixed group order access → network → device → data →
logging; with no keyword match the domain is `data_protection` exactly
when the normalised risk level is `high` or `critical` and `general`
otherwise; and any text containing both `network` and `password` lands
in `access_control`. -/
theorem c4_classify_domain (asset threat : String) (rl : Option String) :
    (accessControlKeywords.any
        (fun kw => containsSubstr (lowerString (asset ++ " " ++ threat)) kw) = true →
      classify_domain asset threat rl = "access_control") ∧
    (accessControlKeywords.any
        (fun kw => containsSubstr (lowerString (asset ++ " " ++ threat)) kw) = false →
      networkKeywords.any
        (fun kw => containsSubstr (lowerString (asset ++ " " ++ threat)) kw) = true →
      classify_domain asset threat rl = "network_security") ∧
    (accessControlKeywords.any
        (fun kw => containsSubstr (lowerString (asset ++ " " ++ threat)) kw) = false →
      networkKeywords.any
        (fun kw => containsSubstr (lowerString (asset ++ " " ++ threat)) kw) = false →
      deviceKeywords.any
        (fun kw => containsSubstr (lowerString (asset ++ " " ++ threat)) kw) = true →
      classify_domain asset threat rl = "device_security") ∧
    (accessControlKeywords.any
        (fun kw => containsSubstr (lowerString (asset ++ " " ++ threat)) kw) = false →
      networkKeywords.any
        (fun kw => containsSubstr (lowerString (asset ++ " " ++ threat)) kw) = false →
      deviceKeywords.any
        (fun kw => containsSubstr (lowerString (asset ++ " " ++ threat)) kw) = false →
      dataProtectionKeywords.any
        (fun kw => containsSubstr (lowerString (asset ++ " " ++ threat)) kw) = true →
      classify_domain asset threat rl = "data_protection") ∧
    (accessControlKeywords.any
        (fun kw => containsSubstr (lowerString (asset ++ " " ++ threat)) kw) = false →
      networkKeywords.any
        (fun kw => containsSubstr (lowerString (asset ++ " " ++ threat)) kw) = false →
      deviceKeywords.any
        (fun kw => containsSubstr (lowerString (asset ++ " " ++ threat)) kw) = false →
      dataProtectionKeywords.any
        (fun kw => containsSubstr (lowerString (asset ++ " " ++ threat)) kw) = false →
      loggingKeywords.any
        (fun kw => containsSubstr (lowerString (asset ++ " " ++ threat)) kw) = true →
      classify_domain asset threat rl = "logging_monitoring") ∧
    ((∀ g ∈ allKeywordGroups, ∀ kw ∈ g,
        containsSubstr (lowerString (asset ++ " " ++ threat)) kw = false) →
      classify_domain asset threat rl =
        if rl = some "high" ∨ rl = some "critical" then "data_protection" else "general") ∧
    (containsSubstr (lowerString (asset ++ " " ++ threat)) "network" = true →
      containsSubstr (lowerString (asset ++ " " ++ threat)) "password" = true →
      classify_domain asset threat rl = "access_control") := by
  refine ⟨?_, ?_, ?_, ?_, ?_, ?_, ?_⟩
  · intro h1
    simp [classify_domain, h1]
  · intro h1 h2
    simp [classify_domain, h1, h2]
  · intro h1 h2 h3
    simp [classify_domain, h1, h2, h3]
  · intro h1 h2 h3 h4
    simp [classify_domain, h1, h2, h3, h4]
  · intro h1 h2 h3 h4 h5
    simp [classify_domain, h1, h2, h3, h4, h5]
  · intro hall
    have key : ∀ g ∈ allKeywordGroups,
        g.any (fun kw => containsSubstr (lowerString (asset ++ " " ++ threat)) kw) = false := by
      intro g hg
      rw [List.any_eq_false]
      intro kw hkw
      simp [hall g hg kw hkw]
    have h1 := key accessControlKeywords (by simp [allKeywordGroups])
    have h2 := key networkKeywords (by simp [allKeywordGroups])
    have h3 := key deviceKeywords (by simp [allKeywordGroups])
    have h4 := key dataProtectionKeywords (by simp [allKeywordGroups])
    have h5 := key loggingKeywords (by simp [allKeywordGroups])
    by_cases hrl : rl = some "high" ∨ rl = some "critical"
    · have hb : (rl == some "high" || rl == some "critical") = true := by
        rcases hrl with h | h <;> simp [h]
      simp [classify_domain, h1, h2, h3, h4, h5, hb, hrl]
    · have hb : (rl == some "high" || rl == some "critical") = false := by
        push_neg at hrl
        simp [hrl.1, hrl.2]
      simp [classify_domain, h1, h2, h3, h4, h5, hb, hrl]
  · intro hnet hpass
    have h1 : accessControlKeywords.any
        (fun kw => containsSubstr (lowerString (asset ++ " " ++ threat)) kw) = true :=
      List.any_eq_true.mpr ⟨"password", by simp [accessControlKeywords], hpass⟩
    simp [classify_domain, h1]

/-- Witness for C4 at the spec's concrete scenario and at a
keyword-free scenario exercising the high-risk fallback. -/
theorem c4_witness :
    classify_domain "Patient Monitor" "Unauthorized access via weak credentials" none
      = "access_control" ∧
    classify_domain "Gamma" "Beta" (some "high") = "data_protection" ∧
    classify_domain "Gamma" "Beta" none = "general" := by
  refine ⟨?_, ?_, ?_⟩
  · exact (c4_classify_domain "Patient Monitor"
      "Unauthorized access via weak credentials" none).1 (by decide)
  · exact ((c4_classify_domain "Gamma" "Beta" (some "high")).2.2.2.2.2.1
      (by decide)).trans (by simp)
  · exact ((c4_classify_domain "Gamma" "Beta" none).2.2.2.2.2.1
      (by decide)).trans (by simp)

/-! ## Claim C1 -/

/-- A non-negative score always gets a level, namely the one recorded by
`scoredRowOf`. -/
lemma level_for_score_ok (t : RiskThresholds) (s : Int) (h : 0 ≤ s) :
    level_for_score t s = .ok ((level_for_score t s).toOption.getD "") := by
  unfold level_for_score
  split_ifs <;> first | rfl | (exfalso; omega)

/-- A column whose cells all coerce to numbers passes the
`_validate_structure` value check. -/
lemma validate_structure_values_of_some (cells : List NumCell)
    (h : ∀ c ∈ cells, (to_numeric c).isSome) :
    validate_structure_values cells = true := by
  unfold validate_structure_values
  split_ifs with hd
  · rfl
  · simp only [Bool.not_eq_true', List.any_eq_false]
    intro c hc
    have := h c hc
    cases hcc : to_numeric c <;> simp_all

/-- `List.mapM` over `Except` succeeds pointwise. -/
lemma mapM_ok {ε α β : Type} (f : α → Except ε β) (g : α → β) :
    ∀ l : List α, (∀ x ∈ l, f x = .ok (g x)) → l.mapM f = .ok (l.map g) := by
  intro l
  induction l with
  | nil => intro _; rfl
  | cons a l ih =>
      intro h
      rw [List.mapM_cons, h a (List.mem_cons_self a l),
        ih (fun x hx => h x (List.mem_cons_of_mem a hx))]
      rfl

/-- Python truncation of an integer-valued rational is that integer. -/
lemma pyInt_intCast (n : Int) : pyInt ((n : ℚ)) = n := by
  simp [pyInt, Rat.ceil, Rat.floor]

/-- The fields of the row `calculate_scores` builds, given the coercion
results of the input cells. -/
lemma scoredRowOf_spec (t : RiskThresholds) (r : ARow) (p i : ℚ)
    (hp : to_numeric r.probability = some p) (hi : to_numeric r.impact = some i) :
    (scoredRowOf t r).probability = p ∧ (scoredRowOf t r).impact = i ∧
    (scoredRowOf t r).risk = pyInt p * pyInt i ∧
    (scoredRowOf t r).riskLevel =
      (level_for_score t (pyInt p * pyInt i)).toOption.getD "" := by
  simp [scoredRowOf, hp, hi]

/-- C1 counterexample: on the numeric in-range input
`Probability = 3/2` (written `mkRat 3 2`), `Impact = 2`,
`calculate_scores` succeeds with `Risk = 2` (each value is truncated to
an integer before multiplying), whereas `Probability × Impact = 3`; so
`Risk` is not `Probability × Impact` for every all-numeric in-range
table. -/
theorem c1_counterexample :
    calculate_scores defaultThresholds
        [{ asset := "A", threat := "T",
           probability := .num (mkRat 3 2), impact := .num 2 }] =
      .ok [{ asset := "A", threat := "T", probability := mkRat 3 2, impact := 2,
             risk := 2, riskLevel := "low" }] ∧
    (mkRat 3 2) * 2 = 3 ∧ ((2 : Int) : ℚ) ≠ (mkRat 3 2) * 2 := by
  refine ⟨rfl, ?_, ?_⟩ <;> rw [Rat.mkRat_eq_div] <;> norm_num

/-- C1 amended: for every input table (with the four canonical columns)
whose `Probability` and `Impact` values are all integers in `[1, 5]`,
`calculate_scores` succeeds and, for every row, `Risk = Probability ×
Impact ∈ [1, 25]` with `RiskLevel` the thresholds' level for that
score (for non-integer numeric values in range the code instead
multiplies the truncations, see the counterexample); and whenever any
`Probability` or `Impact` value is null, non-numeric, or outside the
closed range `[1, 5]`, `calculate_scores` fails with a
`RiskMatrixValidationError`. -/
theorem c1_calculate_scores_amended :
    (∀ rows : List ARow,
      (∀ r ∈ rows, ∃ p : Int, to_numeric r.probability = some ((p : ℚ)) ∧ 1 ≤ p ∧ p ≤ 5) →
      (∀ r ∈ rows, ∃ i : Int, to_numeric r.impact = some ((i : ℚ)) ∧ 1 ≤ i ∧ i ≤ 5) →
      calculate_scores defaultThresholds rows =
          .ok (rows.map (scoredRowOf defaultThresholds)) ∧
      (∀ r ∈ rows, ∀ p i : Int,
        to_numeric r.probability = some ((p : ℚ)) → to_numeric r.impact = some ((i : ℚ)) →
        (scoredRowOf defaultThresholds r).risk = p * i ∧
        (1 ≤ p → p ≤ 5 → 1 ≤ i → i ≤ 5 →
          1 ≤ (scoredRowOf defaultThresholds r).risk ∧
          (scoredRowOf defaultThresholds r).risk ≤ 25 ∧
          level_for_score defaultThresholds ((scoredRowOf defaultThresholds r).risk) =
            .ok ((scoredRowOf defaultThresholds r).riskLevel)))) ∧
    (∀ rows : List ARow,
      (∃ r ∈ rows, to_numeric r.probability = none ∨ to_numeric r.impact = none ∨
        (∃ q : ℚ, (to_numeric r.probability = some q ∨ to_numeric r.impact = some q) ∧
          (q < 1 ∨ 5 < q))) →
      ∃ msg, calculate_scores defaultThresholds rows = .error (.validation msg)) := by
  constructor
  · intro rows hprob himp
    have g1 : validate_structure_values (rows.map (fun r => r.probability)) = true := by
      apply validate_structure_values_of_some
      intro c hc
      rw [List.mem_map] at hc
      obtain ⟨r, hr, rfl⟩ := hc
      obtain ⟨p, hp, -, -⟩ := hprob r hr
      simp [hp]
    have g2 : validate_structure_values (rows.map (fun r => r.impact)) = true := by
      apply validate_structure_values_of_some
      intro c hc
      rw [List.mem_map] at hc
      obtain ⟨r, hr, rfl⟩ := hc
      obtain ⟨i, hi, -, -⟩ := himp r hr
      simp [hi]
    have g3 : rows.any (fun r =>
        (to_numeric r.probability).isNone || (to_numeric r.impact).isNone) = false := by
      rw [List.any_eq_false]
      intro r hr
      obtain ⟨p, hp, -, -⟩ := hprob r hr
      obtain ⟨i, hi, -, -⟩ := himp r hr
      simp [hp, hi]
    have g4 : rows.any (fun r =>
        !(decide (1 ≤ (to_numeric r.probability).getD 0) &&
          decide ((to_numeric r.probability).getD 0 ≤ 5))) = false := by
      rw [List.any_eq_false]
      intro r hr
      obtain ⟨p, hp, hp1, hp5⟩ := hprob r hr
      have b1 : (1 : ℚ) ≤ (p : ℚ) := by exact_mod_cast hp1
      have b5 : ((p : ℚ)) ≤ 5 := by exact_mod_cast hp5
      simp [hp, b1, b5]
    have g5 : rows.any (fun r =>
        !(decide (1 ≤ (to_numeric r.impact).getD 0) &&
          decide ((to_numeric r.impact).getD 0 ≤ 5))) = false := by
      rw [List.any_eq_false]
      intro r hr
      obtain ⟨i, hi, hi1, hi5⟩ := himp r hr
      have b1 : (1 : ℚ) ≤ (i : ℚ) := by exact_mod_cast hi1
      have b5 : ((i : ℚ)) ≤ 5 := by exact_mod_cast hi5
      simp [hi, b1, b5]
    constructor
    · unfold calculate_scores
      rw [g1, g2, g3, g4, g5]
      simp only [Bool.not_true, Bool.false_eq_true, if_false]
      apply mapM_ok
      intro r hr
      obtain ⟨p, hp, hp1, hp5⟩ := hprob r hr
      obtain ⟨i, hi, hi1, hi5⟩ := himp r hr
      obtain ⟨-, -, hrisk, -⟩ :=
        scoredRowOf_spec defaultThresholds r _ _ hp hi
      have hnn : 0 ≤ (scoredRowOf defaultThresholds r).risk := by
        rw [hrisk, pyInt_intCast, pyInt_intCast]
        nlinarith
      rw [level_for_score_ok defaultThresholds _ hnn]
    · intro r hr p i hp hi
      obtain ⟨-, -, hrisk, hlvl⟩ := scoredRowOf_spec defaultThresholds r _ _ hp hi
      have hrisk2 : (scoredRowOf defaultThresholds r).risk = p * i := by
        rw [hrisk, pyInt_intCast, pyInt_intCast]
      refine ⟨hrisk2, ?_⟩
      intro hp1 hp5 hi1 hi5
      have hr1 : 1 ≤ (scoredRowOf defaultThresholds r).risk := by
        rw [hrisk2]; nlinarith
      have hr25 : (scoredRowOf defaultThresholds r).risk ≤ 25 := by
        rw [hrisk2]; nlinarith
      refine ⟨hr1, hr25, ?_⟩
      have hnn : 0 ≤ (scoredRowOf defaultThresholds r).risk := by omega
      rw [level_for_score_ok defaultThresholds _ hnn, hlvl, hrisk2,
        pyInt_intCast, pyInt_intCast]
  · intro rows hbad
    obtain ⟨r, hr, hcase⟩ := hbad
    unfold calculate_scores
    by_cases g1 : (!validate_structure_values (rows.map (fun r => r.probability))) = true
    · exact ⟨_, by rw [if_pos g1]⟩
    by_cases g2 : (!validate_structure_values (rows.map (fun r => r.impact))) = true
    · exact ⟨_, by rw [if_neg g1, if_pos g2]⟩
    by_cases g3 : rows.any (fun r =>
        (to_numeric r.probability).isNone || (to_numeric r.impact).isNone) = true
    · exact ⟨_, by rw [if_neg g1, if_neg g2, if_pos g3]⟩
    by_cases g4 : rows.any (fun r =>
        !(decide (1 ≤ (to_numeric r.probability).getD 0) &&
          decide ((to_numeric r.probability).getD 0 ≤ 5))) = true
    · exact ⟨_, by rw [if_neg g1, if_neg g2, if_neg g3, if_pos g4]⟩
    by_cases g5 : rows.any (fun r =>
        !(decide (1 ≤ (to_numeric r.impact).getD 0) &&
          decide ((to_numeric r.impact).getD 0 ≤ 5))) = true
    · exact ⟨_, by rw [if_neg g1, if_neg g2, if_neg g3, if_neg g4, if_pos g5]⟩
    exfalso
    rw [Bool.not_eq_true, List.any_eq_false] at g3 g4 g5
    have h3 := g3 r hr
    have h4 := g4 r hr
    have h5 := g5 r hr
    rcases hcase with hnone | hnone | ⟨q, hq, hrange⟩
    · simp [hnone] at h3
    · simp [hnone] at h3
    · rcases hq with hq | hq
      · rw [hq] at h4
        simp at h4
        rcases hrange with h | h <;> linarith [h4.1, h4.2]
      · rw [hq] at h5
        simp at h5
        rcases hrange with h | h <;> linarith [h5.1, h5.2]

/-- Witness for C1: a one-row all-integer table scores `4 × 5 = 20 →
critical`, and a table with `Probability = 6` fails with a validation
error. -/
theorem c1_witness :
    calculate_scores defaultThresholds
        [{ asset := "Infusion Pump", threat := "Malware infection",
           probability := .num 4, impact := .num 5 }] =
      .ok [{ asset := "Infusion Pump", threat := "Malware infection",
             probability := 4, impact := 5, risk := 20, riskLevel := "critical" }] ∧
    (∃ msg, calculate_scores defaultThresholds
        [{ asset := "Server", threat := "Malware",
           probability := .num 6, impact := .num 5 }] = .error (.validation msg)) := by
  constructor
  · have h := (c1_calculate_scores_amended.1
      [{ asset := "Infusion Pump", threat := "Malware infection",
         probability := .num 4, impact := .num 5 }]
      (by intro r hr; simp at hr; subst hr; exact ⟨4, rfl, by decide, by decide⟩)
      (by intro r hr; simp at hr; subst hr; exact ⟨5, rfl, by decide, by decide⟩)).1
    rw [h]
    rfl
  · exact c1_calculate_scores_amended.2
      [{ asset := "Server", threat := "Malware",
         probability := .num 6, impact := .num 5 }]
      ⟨{ asset := "Server", threat := "Malware",
         probability := .num 6, impact := .num 5 }, by simp,
       Or.inr (Or.inr ⟨6, Or.inl rfl, Or.inr (by norm_num)⟩)⟩

/-! ## Claim C6 -/

/-- C6: `load_csv` fails with the builtin `FileNotFoundError` when the
path does not exist, with a `RiskAssessmentError` when the file exceeds
the 10 MiB ceiling, and with a `RiskMatrixValidationError` when the
parsed file has zero data rows; the not-found kind is distinct from the
assessment/validation kinds, so callers can tell "does not exist" from
"exists but invalid". -/
theorem c6_load_csv_errors (fs : List (String × FileData)) (path : String) :
    (fs.lookup path = none → load_csv fs path = .error (.notFound path)) ∧
    (∀ f, fs.lookup path = some f → MAX_FILE_SIZE_BYTES < f.size →
        load_csv fs path = .error (.assessment "File is too large for processing.")) ∧
    (∀ f, fs.lookup path = some f → f.size ≤ MAX_FILE_SIZE_BYTES → f.rows = [] →
        load_csv fs path = .error (.validation "CSV file does not contain any data.")) ∧
    (∀ p m, AssessError.notFound p ≠ AssessError.validation m) ∧
    (∀ p m, AssessError.notFound p ≠ AssessError.assessment m) := by
  refine ⟨?_, ?_, ?_, ?_, ?_⟩
  · intro h
    simp [load_csv, h]
  · intro f hf hsize
    simp [load_csv, hf, hsize]
  · intro f hf hsize hrows
    have hns : ¬ (f.size > MAX_FILE_SIZE_BYTES) := by omega
    simp [load_csv, hf, hns, hrows]
  · intro p m h
    exact AssessError.noConfusion h
  · intro p m h
    exact AssessError.noConfusion h

/-- Witness for C6 on a concrete one-file filesystem: a missing path, an
oversized file, and an empty parse each produce their distinct error. -/
theorem c6_witness :
    load_csv [("risks.csv", ⟨64, []⟩)] "absent.csv" = .error (.notFound "absent.csv") ∧
    load_csv [("big.csv", ⟨10485761, [⟨"a", "t", .num 1, .num 1⟩]⟩)] "big.csv" =
      .error (.assessment "File is too large for processing.") ∧
    load_csv [("risks.csv", ⟨64, []⟩)] "risks.csv" =
      .error (.validation "CSV file does not contain any data.") :=
  ⟨(c6_load_csv_errors [("risks.csv", ⟨64, []⟩)] "absent.csv").1 rfl,
   (c6_load_csv_errors [("big.csv", ⟨10485761, [⟨"a", "t", .num 1, .num 1⟩]⟩)]
      "big.csv").2.1 _ rfl (by decide),
   (c6_load_csv_errors [("risks.csv", ⟨64, []⟩)] "risks.csv").2.2.1 _ rfl
      (by decide) rfl⟩

/-! ## Claim C7 -/

/-- C7: `export_csv` fails when the destination exists and `overwrite`
is off, leaving the filesystem (and so the prior destination file)
untouched; with a fresh destination under an existing directory it
succeeds and returns the resolved path, after which a second export to
the same path fails without `overwrite` but succeeds with it; and with
`overwrite` on it always succeeds under an existing directory. -/
theorem c7_export_csv_overwrite (fs : FS) (df df2 : List ScoredRow) (dir fname : String) :
    (∀ old, fs.dirs.contains dir = true →
        fs.files.lookup (dir ++ "/" ++ fname) = some old →
        export_csv fs df dir fname false =
          (fs, .error (.assessment
            "Refusing to overwrite existing file. Pass overwrite=True to allow this.")) ∧
        (export_csv fs df dir fname false).1.files.lookup (dir ++ "/" ++ fname) = some old) ∧
    (fs.dirs.contains dir = true → fs.files.lookup (dir ++ "/" ++ fname) = none →
        ∃ fs1, export_csv fs df dir fname false = (fs1, .ok (dir ++ "/" ++ fname)) ∧
          fs1.files.lookup (dir ++ "/" ++ fname) = some (df.map sanitize_scored) ∧
          export_csv fs1 df2 dir fname false =
            (fs1, .error (.assessment
              "Refusing to overwrite existing file. Pass overwrite=True to allow this.")) ∧
          ∃ fs2, export_csv fs1 df2 dir fname true = (fs2, .ok (dir ++ "/" ++ fname)) ∧
            fs2.files.lookup (dir ++ "/" ++ fname) = some (df2.map sanitize_scored)) ∧
    (fs.dirs.contains dir = true →
        ∃ fs3, export_csv fs df dir fname true = (fs3, .ok (dir ++ "/" ++ fname))) := by
  refine ⟨?_, ?_, ?_⟩
  · intro old hdir hold
    have hdir2 : dir ∈ fs.dirs := by simpa using hdir
    constructor
    · simp [export_csv, hdir2, hold]
    · simp [export_csv, hdir2, hold]
  · intro hdir hfresh
    have hdir2 : dir ∈ fs.dirs := by simpa using hdir
    refine ⟨{ fs with files :=
        (dir ++ "/" ++ fname, df.map sanitize_scored) :: fs.files }, ?_, ?_, ?_, ?_⟩
    · simp [export_csv, hdir2, hfresh]
    · simp [List.lookup]
    · simp [export_csv, hdir2, List.lookup]
    · refine ⟨{ fs with files :=
          (dir ++ "/" ++ fname, df2.map sanitize_scored) ::
            (dir ++ "/" ++ fname, df.map sanitize_scored) :: fs.files }, ?_, ?_⟩
      · simp [export_csv, hdir2]
      · simp [List.lookup]
  · intro hdir
    have hdir2 : dir ∈ fs.dirs := by simpa using hdir
    refine ⟨{ fs with files :=
        (dir ++ "/" ++ fname, df.map sanitize_scored) :: fs.files }, ?_⟩
    simp [export_csv, hdir2]

/-- Witness for C7 on a concrete filesystem: exporting twice to the same
fresh path fails on the second call without `overwrite` and succeeds
with it. -/
theorem c7_witness :
    ∃ fs1, export_csv ⟨["out"], []⟩ [] "out" "scored.csv" false =
        (fs1, .ok "out/scored.csv") ∧
      (export_csv fs1 [] "out" "scored.csv" false).2 =
        .error (.assessment
          "Refusing to overwrite existing file. Pass overwrite=True to allow this.") ∧
      (export_csv fs1 [] "out" "scored.csv" true).2 = .ok "out/scored.csv" := by
  obtain ⟨fs1, h1, -, h2, ⟨fs2, h3, -⟩⟩ :=
    (c7_export_csv_overwrite ⟨["out"], []⟩ [] [] "out" "scored.csv").2.1 rfl rfl
  exact ⟨fs1, h1, by rw [h2], by rw [h3]; exact rfl⟩

/-! ## Claim C10 -/

/-- `find?` over an appended list looks in the left part first. -/
lemma find_append {α : Type} (p : α → Bool) (l1 l2 : List α) :
    (l1 ++ l2).find? p = (l1.find? p <|> l2.find? p) := by
  induction l1 with
  | nil => simp
  | cons a l ih => by_cases h : p a <;> simp [List.find?_cons, h, ih]

/-- Looking up a key in the dictionary built row by row returns the
entry of the last row with that key, falling back to the initial
dictionary. -/
lemma map_foldl_lookup (k : String) :
    ∀ (rows : List CRow) (acc : String → Option MapEntry),
      (rows.foldl (fun a r => updateMap a (riskKey r) (entryFor r)) acc) k
        = (((rows.reverse.find? (fun r => riskKey r == k)).map entryFor) <|> acc k) := by
  intro rows
  induction rows with
  | nil => intro acc; rfl
  | cons r rest ih =>
      intro acc
      rw [List.foldl_cons, ih, List.reverse_cons, find_append]
      cases hfind : rest.reverse.find? (fun r => riskKey r == k) with
      | some r2 => rfl
      | none =>
          by_cases hk : riskKey r = k
          · simp [List.find?, hk, updateMap]
          · have hk2 : (riskKey r == k) = false := by simp [hk]
            have hk3 : ¬ (k = riskKey r) := fun h => hk h.symm
            simp [List.find?, hk2, updateMap, hk3]

/-- C10: `map_risks_to_controls` keys its result by
`"<sanitized asset>::<sanitized threat>"`; rows sharing one key collapse
to a single entry, namely the one computed from the last such row in
input order; and `generate_gap_analysis` extends exactly that entry. -/
theorem c10_map_key_last_wins (rows : List CRow) (k : String) (hne : rows ≠ []) :
    ∃ m, map_risks_to_controls rows = .ok m ∧
      m k = (rows.reverse.find? (fun r => riskKey r == k)).map entryFor ∧
      ∀ impl, ∃ g, generate_gap_analysis rows impl = .ok g ∧
        g k = (m k).bind (gapFor impl) := by
  have hempty : rows.isEmpty = false := by
    cases rows with
    | nil => exact absurd rfl hne
    | cons a l => rfl
  refine ⟨rows.foldl (fun acc r => updateMap acc (riskKey r) (entryFor r)) (fun _ => none),
    ?_, ?_, ?_⟩
  · simp [map_risks_to_controls, hempty]
  · rw [map_foldl_lookup k rows (fun _ => none)]
    cases rows.reverse.find? (fun r => riskKey r == k) with
    | some r2 => rfl
    | none => rfl
  · intro impl
    refine ⟨fun k2 => ((rows.foldl (fun acc r => updateMap acc (riskKey r) (entryFor r))
        (fun _ => none)) k2).bind (gapFor impl), ?_, rfl⟩
    simp [generate_gap_analysis, map_risks_to_controls, hempty, Except.map]

/-- Witness for C10: two rows with identical sanitized asset and threat
text collapse to one entry carrying the second row's risk level. -/
theorem c10_witness :
    ∃ m, map_risks_to_controls
        [⟨"Pump", "data leak", some "Low"⟩, ⟨"Pump", "data leak", some "High"⟩] = .ok m ∧
      m "Pump::data leak" =
        some (entryFor ⟨"Pump", "data leak", some "High"⟩) ∧
      (entryFor ⟨"Pump", "data leak", some "High"⟩).risk_level = some "high" := by
  obtain ⟨m, hm, hk, -⟩ := c10_map_key_last_wins
    [⟨"Pump", "data leak", some "Low"⟩, ⟨"Pump", "data leak", some "High"⟩]
    "Pump::data leak" (by simp)
  refine ⟨m, hm, ?_, ?_⟩
  · rw [hk]; exact rfl
  · exact rfl

/-! ## Claim C3 -/

/-- Soundness of the per-framework gap partition: membership in the
implemented (resp. missing) list is membership in the recommended list
together with the control's leading token being (resp. not being) in
the normalised implemented token set, and every recommended control has
a leading token. -/
lemma gapPartition_sound (tokens : List String) :
    ∀ (rec imp mis : List String), gapPartition rec tokens = some (imp, mis) →
      (∀ c, c ∈ imp ↔
        (c ∈ rec ∧ ∃ tok, controlTokenLower c = some tok ∧ tokens.contains tok = true)) ∧
      (∀ c, c ∈ mis ↔
        (c ∈ rec ∧ ∃ tok, controlTokenLower c = some tok ∧ tokens.contains tok = false)) ∧
      (∀ c ∈ rec, ∃ tok, controlTokenLower c = some tok) := by
  intro rec
  induction rec with
  | nil =>
      intro imp mis h
      simp only [gapPartition, Option.some.injEq, Prod.mk.injEq] at h
      obtain ⟨h1, h2⟩ := h
      subst h1
      subst h2
      refine ⟨?_, ?_, ?_⟩ <;> intro c <;> simp
  | cons c0 rest ih =>
      intro imp mis h
      unfold gapPartition at h
      cases hrest : gapPartition rest tokens with
      | none => rw [hrest] at h; simp at h
      | some pr =>
          obtain ⟨impR, misR⟩ := pr
          cases htok : controlTokenLower c0 with
          | none => rw [hrest, htok] at h; simp at h
          | some tok =>
              rw [hrest, htok] at h
              have h2 : (if tokens.contains tok = true then some (c0 :: impR, misR)
                  else some (impR, c0 :: misR)) = some (imp, mis) := h
              obtain ⟨ihImp, ihMis, ihTok⟩ := ih impR misR hrest
              by_cases hc : tokens.contains tok = true
              · rw [if_pos hc] at h2
                simp only [Option.some.injEq, Prod.mk.injEq] at h2
                obtain ⟨h1, h3⟩ := h2
                subst h1
                subst h3
                refine ⟨?_, ?_, ?_⟩
                · intro c
                  constructor
                  · intro hcmem
                    rcases List.mem_cons.mp hcmem with rfl | hcm
                    · exact ⟨List.mem_cons_self _ _, tok, htok, hc⟩
                    · obtain ⟨hrec, tk, htk, htkc⟩ := (ihImp c).mp hcm
                      exact ⟨List.mem_cons_of_mem _ hrec, tk, htk, htkc⟩
                  · rintro ⟨hrec, tk, htk, htkc⟩
                    rcases List.mem_cons.mp hrec with rfl | hcm
                    · exact List.mem_cons_self _ _
                    · exact List.mem_cons_of_mem _ ((ihImp c).mpr ⟨hcm, tk, htk, htkc⟩)
                · intro c
                  constructor
                  · intro hcmem
                    obtain ⟨hrec, tk, htk, htkc⟩ := (ihMis c).mp hcmem
                    exact ⟨List.mem_cons_of_mem _ hrec, tk, htk, htkc⟩
                  · rintro ⟨hrec, tk, htk, htkc⟩
                    rcases List.mem_cons.mp hrec with rfl | hcm
                    · rw [htok] at htk
                      injection htk with he
                      subst he
                      rw [hc] at htkc
                      exact absurd htkc (by simp)
                    · exact (ihMis c).mpr ⟨hcm, tk, htk, htkc⟩
                · intro c hcrec
                  rcases List.mem_cons.mp hcrec with rfl | hcm
                  · exact ⟨tok, htok⟩
                  · exact ihTok c hcm
              · rw [if_neg hc] at h2
                simp only [Option.some.injEq, Prod.mk.injEq] at h2
                obtain ⟨h1, h3⟩ := h2
                subst h1
                subst h3
                have hcf : tokens.contains tok = false := by
                  cases hcc : tokens.contains tok with
                  | false => rfl
                  | true => exact absurd hcc hc
                refine ⟨?_, ?_, ?_⟩
                · intro c
                  constructor
                  · intro hcmem
                    obtain ⟨hrec, tk, htk, htkc⟩ := (ihImp c).mp hcmem
                    exact ⟨List.mem_cons_of_mem _ hrec, tk, htk, htkc⟩
                  · rintro ⟨hrec, tk, htk, htkc⟩
                    rcases List.mem_cons.mp hrec with rfl | hcm
                    · rw [htok] at htk
                      injection htk with he
                      subst he
                      rw [hcf] at htkc
                      exact absurd htkc (by simp)
                    · exact (ihImp c).mpr ⟨hcm, tk, htk, htkc⟩
                · intro c
                  constructor
                  · intro hcmem
                    rcases List.mem_cons.mp hcmem with rfl | hcm
                    · exact ⟨List.mem_cons_self _ _, tok, htok, hcf⟩
                    · obtain ⟨hrec, tk, htk, htkc⟩ := (ihMis c).mp hcm
                      exact ⟨List.mem_cons_of_mem _ hrec, tk, htk, htkc⟩
                  · rintro ⟨hrec, tk, htk, htkc⟩
                    rcases List.mem_cons.mp hrec with rfl | hcm
                    · exact List.mem_cons_self _ _
                    · exact List.mem_cons_of_mem _ ((ihMis c).mpr ⟨hcm, tk, htk, htkc⟩)
                · intro c hcrec
                  rcases List.mem_cons.mp hcrec with rfl | hcm
                  · exact ⟨tok, htok⟩
                  · exact ihTok c hcm

/-- C3: in every entry of `generate_gap_analysis` (default domain
mappings, arbitrary risk input and caller-supplied implemented
controls) and for each framework, every recommended control lands in
exactly one of `implemented_controls` / `missing_controls`, their union
is `recommended_controls`, membership in `implemented_controls` is
exactly leading-token membership in the normalised implemented token
set, and the normalised set consists of the trimmed, lowercased leading
tokens of the supplied identifiers. -/
theorem c3_gap_analysis_partition (rows : List CRow) (impl : ImplementedControls)
    (g : String → Option GapEntry) (k : String) (e : GapEntry) (fw : Framework)
    (hg : generate_gap_analysis rows impl = .ok g) (hk : g k = some e) :
    (∀ c, (c ∈ fwControls e.implemented_controls fw ∨
           c ∈ fwControls e.missing_controls fw) ↔
          c ∈ fwControls e.recommended_controls fw) ∧
    (∀ c, ¬(c ∈ fwControls e.implemented_controls fw ∧
            c ∈ fwControls e.missing_controls fw)) ∧
    (∀ c, c ∈ fwControls e.implemented_controls fw ↔
          (c ∈ fwControls e.recommended_controls fw ∧
           ∃ tok, controlTokenLower c = some tok ∧
             tok ∈ normalize_implemented (fwImplemented impl fw))) ∧
    (∀ tok, tok ∈ normalize_implemented (fwImplemented impl fw) ↔
          ∃ raw ∈ fwImplemented impl fw, (pystrip raw).data ≠ [] ∧
            (firstToken (pystrip raw)).map lowerString = some tok) := by
  cases hm : map_risks_to_controls rows with
  | error msg =>
      rw [generate_gap_analysis, hm] at hg
      exact absurd hg (by simp [Except.map])
  | ok m =>
      rw [generate_gap_analysis, hm] at hg
      simp only [Except.map, Except.ok.injEq] at hg
      subst hg
      obtain ⟨me, hme, hgap⟩ := Option.bind_eq_some.mp hk
      have hpart : ∀ fw2 : Framework,
          gapPartition (fwControls me.recommended_controls fw2)
            (normalize_implemented (fwImplemented impl fw2)) =
          some (fwControls e.implemented_controls fw2,
                fwControls e.missing_controls fw2) ∧
          fwControls e.recommended_controls fw2 = fwControls me.recommended_controls fw2 := by
        unfold gapFor at hgap
        cases hI : gapPartition me.recommended_controls.iso_27001
            (normalize_implemented impl.iso_27001) with
        | none => rw [hI] at hgap; simp at hgap
        | some prI =>
            cases hH : gapPartition me.recommended_controls.hipaa
                (normalize_implemented impl.hipaa) with
            | none => rw [hI, hH] at hgap; simp at hgap
            | some prH =>
                cases hG : gapPartition me.recommended_controls.gdpr
                    (normalize_implemented impl.gdpr) with
                | none => rw [hI, hH, hG] at hgap; simp at hgap
                | some prG =>
                    obtain ⟨impI, misI⟩ := prI
                    obtain ⟨impH, misH⟩ := prH
                    obtain ⟨impG, misG⟩ := prG
                    rw [hI, hH, hG] at hgap
                    simp only [Option.some.injEq] at hgap
                    subst hgap
                    intro fw2
                    cases fw2 <;> exact ⟨by assumption, rfl⟩
      obtain ⟨hpfw, hrfw⟩ := hpart fw
      obtain ⟨hImp, hMis, hTok⟩ := gapPartition_sound _ _ _ _ hpfw
      rw [hrfw]
      refine ⟨?_, ?_, ?_, ?_⟩
      · intro c
        constructor
        · rintro (hci | hcm)
          · exact ((hImp c).mp hci).1
          · exact ((hMis c).mp hcm).1
        · intro hcr
          obtain ⟨tok, htok⟩ := hTok c hcr
          cases hcc : (normalize_implemented (fwImplemented impl fw)).contains tok with
          | true => exact Or.inl ((hImp c).mpr ⟨hcr, tok, htok, hcc⟩)
          | false => exact Or.inr ((hMis c).mpr ⟨hcr, tok, htok, hcc⟩)
      · rintro c ⟨hci, hcm⟩
        obtain ⟨-, tok1, htok1, hc1⟩ := (hImp c).mp hci
        obtain ⟨-, tok2, htok2, hc2⟩ := (hMis c).mp hcm
        rw [htok1] at htok2
        injection htok2 with he
        subst he
        rw [hc1] at hc2
        exact absurd hc2 (by simp)
      · intro c
        rw [hImp c]
        constructor
        · rintro ⟨hcr, tok, htok, hcc⟩
          exact ⟨hcr, tok, htok, by simpa using hcc⟩
        · rintro ⟨hcr, tok, htok, hcc⟩
          exact ⟨hcr, tok, htok, by simpa using hcc⟩
      · intro tok
        simp only [normalize_implemented, List.mem_filterMap]
        constructor
        · rintro ⟨raw, hraw, hf⟩
          by_cases hemp : (pystrip raw).data.isEmpty = true
          · rw [if_pos hemp] at hf
            exact absurd hf (by simp)
          · rw [if_neg hemp] at hf
            refine ⟨raw, hraw, ?_, hf⟩
            intro hnil
            exact hemp (by simp [List.isEmpty_iff, hnil])
        · rintro ⟨raw, hraw, hne, hf⟩
          refine ⟨raw, hraw, ?_⟩
          rw [if_neg ?_]
          · exact hf
          · intro hemp
            exact hne (List.isEmpty_iff.mp hemp)

/-- Witness for C3 on a concrete scenario (`EHR Database` / `data
leak`, domain `data_protection`) with one implemented ISO control
(`"a.8.10 extra"`): `A.8.10 - Information deletion` is implemented and
in exactly one bucket. -/
theorem c3_witness :
    ∃ g, generate_gap_analysis [⟨"EHR Database", "data leak", none⟩]
        ⟨["a.8.10 extra"], [], []⟩ = .ok g ∧
    ∃ e, g "EHR Database::data leak" = some e ∧
      (("A.8.10 - Information deletion" ∈ fwControls e.implemented_controls .iso_27001 ∨
        "A.8.10 - Information deletion" ∈ fwControls e.missing_controls .iso_27001) ↔
        "A.8.10 - Information deletion" ∈ fwControls e.recommended_controls .iso_27001) ∧
      ¬("A.8.10 - Information deletion" ∈ fwControls e.implemented_controls .iso_27001 ∧
        "A.8.10 - Information deletion" ∈ fwControls e.missing_controls .iso_27001) := by
  refine ⟨_, rfl, _, rfl, ?_, ?_⟩
  · exact (c3_gap_analysis_partition [⟨"EHR Database", "data leak", none⟩]
      ⟨["a.8.10 extra"], [], []⟩ _ "EHR Database::data leak" _ .iso_27001 rfl rfl).1
      "A.8.10 - Information deletion"
  · exact (c3_gap_analysis_partition [⟨"EHR Database", "data leak", none⟩]
      ⟨["a.8.10 extra"], [], []⟩ _ "EHR Database::data leak" _ .iso_27001 rfl rfl).2.1
      "A.8.10 - Information deletion"

end RiskOps
